import Mathlib

/-!
# Verification of the LocalDocs URL-security / fetch / batch core

Shallow embedding of `src/localdocs/utils/validation.py`,
`src/localdocs/utils/network_simple.py` and
`src/localdocs/managers/doc_manager.py`.

Network and filesystem effects are modelled by explicit environments:
`NetEnv` gives the outcome of DNS resolution (`socket.gethostbyname` plus
`ip_address` parsing), of the trial `urlopen` made by `validate_url_security`,
and of the real GET made by `download_content_sync`; `FsEnv` gives the outcome
of the content-file write and of `ConfigManager.save_config`.  URL parsing by
`urllib.parse.urlparse` is external to the embedded core, so functions take a
`ParsedUrl` — the original string together with the parsed components the code
reads (`scheme`, `hostname`, `port`).

Every embedded function additionally returns the ordered list of network
events it performed (`NetEvent`), so that claims about *when* a connection is
attempted are statable.
-/

set_option maxHeartbeats 1000000

namespace LocalDocs

/-- Decidable equality of `Except` results, for concrete evaluations. -/
instance {ε α : Type} [DecidableEq ε] [DecidableEq α] :
    DecidableEq (Except ε α)
  | .ok a, .ok b => decidable_of_iff (a = b) (by simp)
  | .ok _, .error _ => .isFalse (by simp)
  | .error _, .ok _ => .isFalse (by simp)
  | .error a, .error b => decidable_of_iff (a = b) (by simp)

/-- A URL together with the components `urllib.parse.urlparse` exposes.
`hostname` is `none` when the URL has no host (Python `parsed.hostname is
None`); `port` is the explicit port when one is written in the URL.  Ports are
`Int` because the code compares `parsed.port < 1`. -/
structure ParsedUrl where
  raw : String
  scheme : String
  hostname : Option String
  port : Option Int
deriving DecidableEq, Repr

/-- An IP address in its native family, as produced by
`ipaddress.ip_address`: an IPv4 address is a number `< 2^32`, an IPv6 address
a number `< 2^128`. -/
inductive IPAddr where
  | v4 (a : Nat)
  | v6 (a : Nat)
deriving DecidableEq, Repr

/-- An IP network prefix as built by `ipaddress.ip_network`: family,
network address and mask length. -/
structure IPNetwork where
  isV6 : Bool
  addr : Nat
  maskLen : Nat
deriving DecidableEq, Repr

/-- Membership of an address in a network, `ip_addr in private_range` in
Python: always `False` across families, otherwise equality of the top
`maskLen` bits. -/
def ipInNetwork (ip : IPAddr) (n : IPNetwork) : Bool :=
  match ip with
  | .v4 a => !n.isV6 && (a >>> (32 - n.maskLen) == n.addr >>> (32 - n.maskLen))
  | .v6 a => n.isV6 && (a >>> (128 - n.maskLen) == n.addr >>> (128 - n.maskLen))

/-- Numeric value of a dotted quad. -/
def mkV4 (a b c d : Nat) : Nat := ((a * 256 + b) * 256 + c) * 256 + d

/-- `PRIVATE_IP_RANGES` from `validation.py` (lines 34–45): the ten blocked
prefixes. -/
def PRIVATE_IP_RANGES : List IPNetwork :=
  [ ⟨false, mkV4 10 0 0 0, 8⟩        -- 10.0.0.0/8
  , ⟨false, mkV4 172 16 0 0, 12⟩     -- 172.16.0.0/12
  , ⟨false, mkV4 192 168 0 0, 16⟩    -- 192.168.0.0/16
  , ⟨false, mkV4 127 0 0 0, 8⟩       -- 127.0.0.0/8
  , ⟨false, mkV4 169 254 0 0, 16⟩    -- 169.254.0.0/16
  , ⟨false, mkV4 224 0 0 0, 4⟩       -- 224.0.0.0/4
  , ⟨false, mkV4 240 0 0 0, 4⟩       -- 240.0.0.0/4
  , ⟨true, 1, 128⟩                   -- ::1/128
  , ⟨true, 0xfc000000000000000000000000000000, 7⟩   -- fc00::/7
  , ⟨true, 0xfe800000000000000000000000000000, 10⟩  -- fe80::/10
  ]

/-- The loop `for private_range in PRIVATE_IP_RANGES: if ip_addr in
private_range` (validation.py lines 102–104). -/
def anyBlocked (ip : IPAddr) : Bool :=
  PRIVATE_IP_RANGES.any (ipInNetwork ip)

/-- Python `str.lower()` on the ASCII strings the code lowercases (schemes
and content types). -/
def pyLower (s : String) : String :=
  String.mk (s.data.map Char.toLower)

/-- `ALLOWED_SCHEMES = {'http', 'https'}` and the membership test
`parsed.scheme.lower() not in ALLOWED_SCHEMES` (line 87). -/
def schemeAllowed (scheme : String) : Bool :=
  pyLower scheme == "http" || pyLower scheme == "https"

/-- Python truthiness of `parsed.hostname` (line 91): `None` and the empty
string are falsy. -/
def hostnamePresent (h : Option String) : Bool :=
  match h with
  | none => false
  | some s => !(s == "")

/-- `ALLOWED_CONTENT_TYPES` (validation.py lines 51–57). -/
def ALLOWED_CONTENT_TYPES : List String :=
  ["text/plain", "text/markdown", "text/html", "text/x-markdown",
   "application/octet-stream"]

/-- The `dangerous_ports` set (validation.py line 111). -/
def dangerous_ports : List Int := [22, 23, 25, 53, 110, 143, 993, 995]

/-- Rendering of an `IPv4Address` by `str` (dotted quad). -/
def ipV4Str (a : Nat) : String :=
  toString (a / 16777216 % 256) ++ "." ++ toString (a / 65536 % 256) ++ "." ++
  toString (a / 256 % 256) ++ "." ++ toString (a % 256)

/-- Lowercase hex digits of a 16-bit group, without leading zeros
(`'%x' % group`). -/
def hexStr (n : Nat) : String := String.mk (Nat.toDigits 16 n)

/-- The eight 16-bit groups of an IPv6 address value. -/
def v6Groups (a : Nat) : List Nat :=
  (List.range 8).map (fun i => a >>> ((7 - i) * 16) % 65536)

/-- State of the zero-run scan in `_compress_hextets`:
(index, current start, current length, best start, best length). -/
def v6RunStep (st : Nat × Option Nat × Nat × Option Nat × Nat) (g : Nat) :
    Nat × Option Nat × Nat × Option Nat × Nat :=
  let (i, curStart, curLen, bestStart, bestLen) := st
  if g == 0 then
    let curStart' := match curStart with | none => some i | some s => some s
    let curLen' := curLen + 1
    if curLen' > bestLen then (i + 1, curStart', curLen', curStart', curLen')
    else (i + 1, curStart', curLen', bestStart, bestLen)
  else (i + 1, none, 0, bestStart, bestLen)

/-- Best (first longest) run of zero groups, mirroring
`IPv6Address._compress_hextets`. -/
def v6BestRun (gs : List Nat) : Option Nat × Nat :=
  let (_, _, _, bestStart, bestLen) :=
    gs.foldl v6RunStep (0, none, 0, none, 0)
  (bestStart, bestLen)

/-- Rendering of an `IPv6Address` by `str`: lowercase hex groups with the
first longest run of two or more zero groups compressed to `::`. -/
def ipV6Str (a : Nat) : String :=
  let gs := v6Groups a
  let hx := gs.map hexStr
  match v6BestRun gs with
  | (some s, len) =>
    if len > 1 then
      let before := hx.take s
      let after := hx.drop (s + len)
      let mid := (if before.isEmpty then [""] else before) ++ [""] ++
                 (if after.isEmpty then [""] else after)
      String.intercalate ":" mid
    else String.intercalate ":" hx
  | (none, _) => String.intercalate ":" hx

/-- `str(ip_addr)` as interpolated into the rejection message. -/
def ipStr (ip : IPAddr) : String :=
  match ip with
  | .v4 a => ipV4Str a
  | .v6 a => ipV6Str a

/-- The private-address rejection message (validation.py line 104). -/
def privateIpMsg (ip : IPAddr) : String :=
  "Access to private IP address " ++ ipStr ip ++ " is not allowed"

/-- A network event, in the order the code performs it.  `dnsResolve` is
`socket.gethostbyname`; `trialRequest` is the `urlopen` inside
`validate_url_security`; `realGet` is the `urlopen` inside
`download_content_sync`.  Only the latter two contact the URL's destination. -/
inductive NetEvent where
  | dnsResolve (host : String)
  | trialRequest (url : String)
  | realGet (url : String)
deriving DecidableEq, Repr

/-- The exception classes the embedded fetch path can raise, tagged by the
Python class (note `validation.py` and `network_simple.py` each define their
own hierarchy: `vSsrf`/`vValidation` are `validation.SSRFError` /
`validation.ValidationError`; the `ns` constructors are
`network_simple.NetworkError` / `DownloadError` / `ContentTooLargeError`). -/
inductive PyErr where
  | vSsrf (msg : String)
  | vValidation (msg : String)
  | nsNetwork (msg : String)
  | nsDownload (msg : String)
  | nsContentTooLarge (msg : String)
deriving DecidableEq, Repr

/-- `str(e)` of any of these exceptions: the message. -/
def pyErrStr (e : PyErr) : String :=
  match e with
  | .vSsrf m => m
  | .vValidation m => m
  | .nsNetwork m => m
  | .nsDownload m => m
  | .nsContentTooLarge m => m

/-- Outcome of the trial `urlopen` in `validate_url_security` (lines
116–141).  `ok` carries the raw `content-type` header (when set) and the
parsed `content-length` header (when set and numeric). -/
inductive TrialAnswer where
  | httpError (code : Int) (reason : String)
  | urlError (reason : String)
  | timeout
  | otherError (msg : String)
  | ok (contentType : Option String) (contentLength : Option Int)
deriving DecidableEq, Repr

/-- Outcome of the real GET in `download_content_sync`.  `ok` carries the
parsed `content-length` header and the body as the chunk sequence that
successive `response.read(CHUNK_SIZE)` calls return (each a byte list;
reading stops at the first empty chunk). -/
inductive GetAnswer where
  | httpError (code : Int) (reason : String)
  | urlError (reason : String)
  | otherError (msg : String)
  | ok (contentLength : Option Int) (chunks : List (List Nat))
deriving DecidableEq, Repr

/-- The network environment: DNS resolution outcome per hostname (error
carries the `gaierror` text), and the response of the trial request and of
the real GET per URL string. -/
structure NetEnv where
  resolve : String → Except String IPAddr
  trial : String → TrialAnswer
  get : String → GetAnswer

/-- The port validation (validation.py lines 106–113).  `none` means no
port-based rejection.  Mirrors the code exactly: the whole block is guarded
by the truthiness test `if parsed.port:`, so an explicit port `0` skips it. -/
def portCheck (p : Option Int) : Option PyErr :=
  match p with
  | none => none
  | some p =>
    if p == 0 then none
    else if p < 1 || p > 65535 then
      some (.vValidation ("Invalid port number: " ++ toString p))
    else if dangerous_ports.contains p then
      some (.vSsrf ("Access to port " ++ toString p ++ " is not allowed"))
    else none

/-- `.split(';')[0]`: the first element of a split at `';'` is the prefix
before the first `';'`. -/
def headBeforeSep (s : String) : String :=
  String.mk (s.data.takeWhile (fun c => !(c == ';')))

/-- The trial-request phase (validation.py lines 115–141): issue the trial
`urlopen`, then check `content-type` and `content-length`.  Every outcome
here is a returned `(bool, message)` pair, never an exception. -/
def trialPhase (env : NetEnv) (u : ParsedUrl) : Bool × Option String :=
  match env.trial u.raw with
  | .httpError code reason =>
      (false, some ("HTTP error " ++ toString code ++ ": " ++ reason))
  | .urlError reason => (false, some ("URL error: " ++ reason))
  | .timeout => (false, some "Connection timeout")
  | .otherError m => (false, some ("Unexpected error: " ++ m))
  | .ok ct cl =>
    let content_type := headBeforeSep (pyLower (ct.getD ""))
    if content_type != "" && !(ALLOWED_CONTENT_TYPES.contains content_type) then
      (false, some ("Content type '" ++ content_type ++
                    "' not allowed for documentation"))
    else
      match cl with
      | some n =>
        if n > 50 * 1024 * 1024 then
          (false, some "Content too large (max 50MB allowed)")
        else (true, none)
      | none => (true, none)

/-- Port check followed by the trial request — the part of
`validate_url_security` after the resolved-IP check has passed. -/
def portAndTrial (env : NetEnv) (u : ParsedUrl) (host : String) :
    Except PyErr (Bool × Option String) × List NetEvent :=
  match portCheck u.port with
  | some e => (.error e, [.dnsResolve host])
  | none => (.ok (trialPhase env u), [.dnsResolve host, .trialRequest u.raw])

/-- `validate_url_security` (validation.py lines 67–146): scheme check,
hostname-presence check, DNS resolution, blocked-range check, port check,
trial request.  Returns the Python outcome — an exception
(`SSRFError`/`ValidationError`) or the returned `(is_valid, error)` pair —
together with the network events performed, in order. -/
def validate_url_security (env : NetEnv) (u : ParsedUrl) :
    Except PyErr (Bool × Option String) × List NetEvent :=
  if !(schemeAllowed u.scheme) then
    (.error (.vSsrf ("Scheme '" ++ u.scheme ++
       "' not allowed. Only HTTP/HTTPS are permitted.")), [])
  else if !(hostnamePresent u.hostname) then
    (.error (.vValidation "URL must contain a valid hostname"), [])
  else
    let host := u.hostname.getD ""
    match env.resolve host with
    | .error e =>
      (.error (.vValidation ("Cannot resolve hostname '" ++ host ++ "': " ++ e)),
       [.dnsResolve host])
    | .ok ip =>
      if anyBlocked ip then
        (.error (.vSsrf (privateIpMsg ip)), [.dnsResolve host])
      else portAndTrial env u host

/-- `error_msg or "URL validation failed"` (network_simple.py line 63):
Python `or` takes the default when the message is `None` or empty. -/
def orDefaultMsg (m : Option String) : String :=
  match m with
  | none => "URL validation failed"
  | some s => if s == "" then "URL validation failed" else s

/-- `validate_url_sync` (network_simple.py lines 44–68).  A returned
`(False, msg)` becomes a `NetworkError` raised *inside* the `try`, so the
generic `except Exception` handler re-wraps it as
`NetworkError("URL validation error: " ++ msg)`. -/
def validate_url_sync (env : NetEnv) (u : ParsedUrl) :
    Except PyErr Bool × List NetEvent :=
  match validate_url_security env u with
  | (.error e, evs) => (.error e, evs)
  | (.ok (true, _), evs) => (.ok true, evs)
  | (.ok (false, msg), evs) =>
    (.error (.nsNetwork ("URL validation error: " ++ orDefaultMsg msg)), evs)

/-! ## Content fetching: `download_content_sync` (network_simple.py lines 71–139)

The decoders embed the codecs the code invokes: strict UTF-8 (`bytes.decode
('utf-8')`), latin-1 and iso-8859-1 (total on bytes, each byte is its own
code point), and cp1252 (undefined on `0x81, 0x8D, 0x8F, 0x90, 0x9D`).
Decoded text is a list of Unicode code points. -/

/-- `MAX_CONTENT_LENGTH = 50 * 1024 * 1024` (network_simple.py line 23). -/
def MAX_CONTENT_LENGTH : Int := 50 * 1024 * 1024

/-- `CHUNK_SIZE = 8192` (network_simple.py line 20). -/
def CHUNK_SIZE : Nat := 8192

/-- A UTF-8 continuation byte. -/
def isContByte (b : Nat) : Bool := 0x80 ≤ b && b < 0xC0

/-- Strict UTF-8 decoding, as `bytes.decode('utf-8')`: rejects stray
continuation bytes, overlong forms (lead bytes `C0`/`C1`, and the range
restrictions on the byte after `E0`/`F0`), surrogates (after `ED`), values
above `U+10FFFF` (after `F4`, lead bytes `F5`–`FF`), and truncated
sequences. -/
def utf8Decode : List Nat → Option (List Nat)
  | [] => some []
  | b0 :: rest =>
    if b0 < 0x80 then
      match utf8Decode rest with
      | some cps => some (b0 :: cps)
      | none => none
    else if b0 < 0xC2 then none
    else if b0 < 0xE0 then
      match rest with
      | b1 :: rest1 =>
        if isContByte b1 then
          match utf8Decode rest1 with
          | some cps => some (((b0 - 0xC0) * 0x40 + (b1 - 0x80)) :: cps)
          | none => none
        else none
      | [] => none
    else if b0 < 0xF0 then
      match rest with
      | b1 :: b2 :: rest2 =>
        let lo1 := if b0 == 0xE0 then 0xA0 else 0x80
        let hi1 := if b0 == 0xED then 0xA0 else 0xC0
        if (lo1 ≤ b1 && b1 < hi1) && isContByte b2 then
          match utf8Decode rest2 with
          | some cps =>
            some (((b0 - 0xE0) * 0x1000 + (b1 - 0x80) * 0x40 + (b2 - 0x80)) :: cps)
          | none => none
        else none
      | _ => none
    else if b0 < 0xF5 then
      match rest with
      | b1 :: b2 :: b3 :: rest3 =>
        let lo1 := if b0 == 0xF0 then 0x90 else 0x80
        let hi1 := if b0 == 0xF4 then 0x90 else 0xC0
        if (lo1 ≤ b1 && b1 < hi1) && isContByte b2 && isContByte b3 then
          match utf8Decode rest3 with
          | some cps =>
            some (((b0 - 0xF0) * 0x40000 + (b1 - 0x80) * 0x1000 +
                  (b2 - 0x80) * 0x40 + (b3 - 0x80)) :: cps)
          | none => none
        else none
      | _ => none
    else none

/-- `bytes.decode('latin-1')`: total on bytes, each byte is its code point. -/
def latin1Decode (bs : List Nat) : Option (List Nat) :=
  if bs.all (· < 256) then some bs else none

/-- One byte under cp1252.  The `0x80`–`0x9F` range maps through the Windows
table; `0x81, 0x8D, 0x8F, 0x90, 0x9D` are undefined and make the decode
raise. -/
def cp1252Byte (b : Nat) : Option Nat :=
  if b < 0x80 then some b
  else if b == 0x80 then some 0x20AC
  else if b == 0x82 then some 0x201A
  else if b == 0x83 then some 0x0192
  else if b == 0x84 then some 0x201E
  else if b == 0x85 then some 0x2026
  else if b == 0x86 then some 0x2020
  else if b == 0x87 then some 0x2021
  else if b == 0x88 then some 0x02C6
  else if b == 0x89 then some 0x2030
  else if b == 0x8A then some 0x0160
  else if b == 0x8B then some 0x2039
  else if b == 0x8C then some 0x0152
  else if b == 0x8E then some 0x017D
  else if b == 0x91 then some 0x2018
  else if b == 0x92 then some 0x2019
  else if b == 0x93 then some 0x201C
  else if b == 0x94 then some 0x201D
  else if b == 0x95 then some 0x2022
  else if b == 0x96 then some 0x2013
  else if b == 0x97 then some 0x2014
  else if b == 0x98 then some 0x02DC
  else if b == 0x99 then some 0x2122
  else if b == 0x9A then some 0x0161
  else if b == 0x9B then some 0x203A
  else if b == 0x9C then some 0x0153
  else if b == 0x9E then some 0x017E
  else if b == 0x9F then some 0x0178
  else if 0xA0 ≤ b && b < 0x100 then some b
  else none

/-- `bytes.decode('cp1252')`. -/
def cp1252Decode (bs : List Nat) : Option (List Nat) :=
  bs.mapM cp1252Byte

/-- `bytes.decode('iso-8859-1')` — the same mapping as latin-1. -/
def iso8859_1Decode (bs : List Nat) : Option (List Nat) :=
  latin1Decode bs

/-- The decoding step of `download_content_sync` (network_simple.py lines
119–130): UTF-8 first, then on `UnicodeDecodeError` the loop over
`['latin-1', 'cp1252', 'iso-8859-1']`, returning the first success; if all
fail, `DownloadError("Cannot decode content: ...")` (the error text carries
the original `UnicodeDecodeError`; that branch is unreachable because
latin-1 decodes every byte string). -/
def decodeContent (bs : List Nat) : Except String (List Nat) :=
  match utf8Decode bs with
  | some cps => .ok cps
  | none =>
    match latin1Decode bs with
    | some cps => .ok cps
    | none =>
      match cp1252Decode bs with
      | some cps => .ok cps
      | none =>
        match iso8859_1Decode bs with
        | some cps => .ok cps
        | none => .error "Cannot decode content"

/-- The chunked read loop (network_simple.py lines 105–117): read chunks
until the first empty one, accumulating `total_size`, and raise
`ContentTooLargeError` as soon as the running total exceeds `max_size`. -/
def readChunks (maxSize : Int) : List (List Nat) → Int → Except String (List Nat)
  | [], _ => .ok []
  | c :: rest, total =>
    if c.length == 0 then .ok []
    else
      let total' := total + (c.length : Int)
      if total' > maxSize then
        .error ("Content exceeded " ++ toString maxSize ++ " bytes during download")
      else
        match readChunks maxSize rest total' with
        | .ok bs => .ok (c ++ bs)
        | .error e => .error e

/-- Streaming then decoding (network_simple.py lines 104–130).  A decode
failure is a `DownloadError` raised inside the `try`, and `DownloadError` is
*not* in the re-raise clause of network_simple.py line 136, so the generic
handler wraps it as `DownloadError("Unexpected download error: ...")`. -/
def streamAndDecode (maxSize : Int) (chunks : List (List Nat)) :
    Except PyErr (List Nat) :=
  match readChunks maxSize chunks 0 with
  | .error m => .error (.nsContentTooLarge m)
  | .ok bytes =>
    match decodeContent bytes with
    | .ok text => .ok text
    | .error m => .error (.nsDownload ("Unexpected download error: " ++ m))

/-- `download_content_sync` (network_simple.py lines 71–139; the sync
function of the same name in network.py lines 190–258 is line-identical):
validate first, then perform the real GET, check the declared
`content-length`, stream the body in 8 KiB chunks with the running size
check, and decode.  Returns the Python outcome (decoded text, or the raised
exception) plus the ordered network events. -/
def download_content_sync (env : NetEnv) (u : ParsedUrl) (maxSize : Int) :
    Except PyErr (List Nat) × List NetEvent :=
  match validate_url_sync env u with
  | (.error e, evs) => (.error e, evs)
  | (.ok _, evs) =>
    let evs := evs ++ [.realGet u.raw]
    match env.get u.raw with
    | .httpError code reason =>
      (.error (.nsDownload ("HTTP error " ++ toString code ++ ": " ++ reason)), evs)
    | .urlError reason => (.error (.nsNetwork ("URL error: " ++ reason)), evs)
    | .otherError m =>
      (.error (.nsDownload ("Unexpected download error: " ++ m)), evs)
    | .ok cl chunks =>
      match cl with
      | some n =>
        if n > maxSize then
          (.error (.nsContentTooLarge ("Content too large: " ++ toString n ++ " bytes")), evs)
        else (streamAndDecode maxSize chunks, evs)
      | none => (streamAndDecode maxSize chunks, evs)

/-! ## Document manager: `doc_manager.py`

`doc_manager.py` imports `ValidationError`, `NetworkError`, `DownloadError`
from `localdocs.exceptions` — classes *distinct* from the same-named classes
in `validation.py` / `network_simple.py` that the fetch path raises.  Its
`except (ValidationError, NetworkError, DownloadError)` clauses therefore
only match exceptions raised by `doc_manager` itself; everything the fetcher
raises falls through to `except Exception` and is re-wrapped as
`exceptions.DownloadError("Unexpected error: ...")`.  `AddErr` tags the
`exceptions`-module classes. -/

/-- The `localdocs.exceptions` classes that `add_doc` / `validate_url` can
raise. -/
inductive AddErr where
  | validation (msg : String)  -- exceptions.ValidationError
  | network (msg : String)     -- exceptions.NetworkError
  | download (msg : String)    -- exceptions.DownloadError
deriving DecidableEq, Repr

/-- Python's substring test `pat in s`: the pattern's characters occur
contiguously in `s`. -/
def strContains (s pat : String) : Bool :=
  decide (pat.data <:+: s.data)

/-- `DocManager.validate_url` (doc_manager.py lines 80–99): run
`validate_url_sync`; any exception whose text contains `"SSRF"` or
`"private IP"` is re-raised as
`exceptions.ValidationError("Security violation: ...")`, anything else as
`exceptions.NetworkError("URL validation failed: ...")`.  Only the
private-address rejection message contains either substring. -/
def docValidateUrl (env : NetEnv) (u : ParsedUrl) : Except AddErr Bool :=
  match (validate_url_sync env u).1 with
  | .ok b => .ok b
  | .error e =>
    let s := pyErrStr e
    if strContains s "SSRF" || strContains s "private IP" then
      .error (.validation ("Security violation: " ++ s))
    else
      .error (.network ("URL validation failed: " ++ s))

/-- A document's metadata entry in `config["documents"]`. -/
structure DocMeta where
  url : String
  name : Option String
  description : Option String
  tags : List String
deriving DecidableEq, Repr

/-- `config["documents"]`: a Python dict as an insertion-ordered
association list. -/
abbrev Documents := List (String × DocMeta)

/-- Dict lookup `documents[k]` / `k in documents`. -/
def lookupDoc : Documents → String → Option DocMeta
  | [], _ => none
  | (k', v') :: rest, k => if k' = k then some v' else lookupDoc rest k

/-- Dict assignment `documents[k] = v`: update in place, or append a new
key. -/
def setDoc : Documents → String → DocMeta → Documents
  | [], k, v => [(k, v)]
  | (k', v') :: rest, k, v =>
    if k' = k then (k, v) :: rest else (k', v') :: setDoc rest k v

/-- The metadata update of `add_doc` / `add_doc_async` (doc_manager.py lines
145–154 and 209–218): a fresh hash ID gets a new entry with empty metadata;
an existing entry keeps its metadata and only its `url` field is assigned. -/
def updateDocuments (cfg : Documents) (hash_id url : String) : Documents :=
  match lookupDoc cfg hash_id with
  | none => setDoc cfg hash_id ⟨url, none, none, []⟩
  | some old => setDoc cfg hash_id { old with url := url }

/-- Filesystem environment for one `add_doc` call: outcome of the content
file write (`OSError` text on failure) and of `ConfigManager.save_config`
(exception text on failure). -/
structure FsEnv where
  writeErr : Option String
  saveErr : Option String

/-- The shared tail of `add_doc` (lines 129–159) and `add_doc_async` (lines
193–223), which duplicate these statements verbatim: save the content file,
update the metadata entry, save the config.  A failed file write raises
`exceptions.DownloadError`; a failed `_save_config` raises
`ConfigurationError("Failed to save configuration: ...")`, which the generic
handler re-wraps as `exceptions.DownloadError("Unexpected error: ...")` —
after the in-memory config was already updated. -/
def persistDoc (hashFn : String → String) (fs : FsEnv) (cfg : Documents)
    (u : ParsedUrl) : Except AddErr String × Documents :=
  let hash_id := hashFn u.raw
  match fs.writeErr with
  | some e => (.error (.download ("Failed to save file: " ++ e)), cfg)
  | none =>
    let cfg' := updateDocuments cfg hash_id u.raw
    match fs.saveErr with
    | none => (.ok hash_id, cfg')
    | some e =>
      (.error (.download
         ("Unexpected error: Failed to save configuration: " ++ e)), cfg')

/-- `DocManager.add_doc` (doc_manager.py lines 101–166): validate the URL,
download (the fetcher re-validates internally against the same
environment), reject empty content, then persist.  The fetcher's exceptions
are `network_simple`/`validation` classes, so the re-raise clause at line
161 does not match them and they become
`exceptions.DownloadError("Unexpected error: ...")`. -/
def add_doc (hashFn : String → String) (env : NetEnv) (fs : FsEnv)
    (cfg : Documents) (u : ParsedUrl) : Except AddErr String × Documents :=
  match docValidateUrl env u with
  | .error e => (.error e, cfg)
  | .ok _ =>
    match (download_content_sync env u MAX_CONTENT_LENGTH).1 with
    | .error e =>
      (.error (.download ("Unexpected error: " ++ pyErrStr e)), cfg)
    | .ok content =>
      if content.isEmpty then
        (.error (.download "Downloaded content is empty"), cfg)
      else persistDoc hashFn fs cfg u

/-- `DocManager.add_doc_async` (doc_manager.py lines 168–230): identical to
`add_doc` except that it skips the `self.validate_url` call and goes
straight to the download (whose fallback implementation is
`download_content_sync`). -/
def add_doc_async (hashFn : String → String) (env : NetEnv) (fs : FsEnv)
    (cfg : Documents) (u : ParsedUrl) : Except AddErr String × Documents :=
  match (download_content_sync env u MAX_CONTENT_LENGTH).1 with
  | .error e =>
    (.error (.download ("Unexpected error: " ++ pyErrStr e)), cfg)
  | .ok content =>
    if content.isEmpty then
      (.error (.download "Downloaded content is empty"), cfg)
    else persistDoc hashFn fs cfg u

/-- `DocManager._add_multiple_sync` (doc_manager.py lines 253–265): process
the URLs in order; `if self.add_doc(url): success_count += 1` (truthiness of
the returned hash string); any exception is caught, printed and skipped.
Config mutations made before an exception stay in place. -/
def add_multiple_sync (hashFn : String → String) (env : NetEnv) (fs : FsEnv) :
    Documents → List ParsedUrl → Nat × Documents
  | cfg, [] => (0, cfg)
  | cfg, u :: rest =>
    let (r, cfg') := add_doc hashFn env fs cfg u
    let inc : Nat := match r with
      | .ok h => if h == "" then 0 else 1
      | .error _ => 0
    let (n, cfgF) := add_multiple_sync hashFn env fs cfg' rest
    (inc + n, cfgF)

/-- The per-task wrapper `download_with_semaphore` (doc_manager.py lines
274–281): run `add_doc_async`, return `result is not None` on success,
catch any exception and return `False`. -/
def download_with_semaphore (hashFn : String → String) (env : NetEnv)
    (fs : FsEnv) (cfg : Documents) (u : ParsedUrl) : Bool :=
  match (add_doc_async hashFn env fs cfg u).1 with
  | .ok _ => true
  | .error _ => false

/-- `DocManager._add_multiple_async` (doc_manager.py lines 267–291):
`asyncio.gather(..., return_exceptions=True)` over one wrapped task per URL
yields one result per URL in submission order; the semaphore only bounds how
many are in flight.  The aggregate is `sum(1 for r in results if r is
True)`.  The tasks' interleaved config writes are serialized by the event
loop in an unspecified order and are not modelled; the outcome list and
count are. -/
def add_multiple_async (hashFn : String → String) (env : NetEnv) (fs : FsEnv)
    (cfg : Documents) (urls : List ParsedUrl) : Nat :=
  ((urls.map (download_with_semaphore hashFn env fs cfg)).count true)

/-- `DocManager.add_multiple` (doc_manager.py lines 232–251): dispatch on
`use_async`; returns the aggregate success count (an `int`) to the caller. -/
def add_multiple (hashFn : String → String) (env : NetEnv) (fs : FsEnv)
    (cfg : Documents) (urls : List ParsedUrl) (use_async : Bool) : Nat :=
  if use_async then add_multiple_async hashFn env fs cfg urls
  else (add_multiple_sync hashFn env fs cfg urls).1

/-! ## Predicates used by the statements, and concrete fixtures -/

/-- Events that contact the URL's destination: the trial request and the
real GET (DNS resolution talks to the resolver, not the destination). -/
def isDestEvent : NetEvent → Bool
  | .trialRequest _ => true
  | .realGet _ => true
  | .dnsResolve _ => false

/-- Whether an event list contains a connection to the destination. -/
def destAttempted (evs : List NetEvent) : Bool := evs.any isDestEvent

/-- The four pre-network checks of `validate_url_security`: allowed scheme,
hostname present, hostname resolves, resolved address outside every blocked
range. -/
def preChecksPass (env : NetEnv) (u : ParsedUrl) : Bool :=
  schemeAllowed u.scheme && hostnamePresent u.hostname &&
    (match env.resolve (u.hostname.getD "") with
     | .ok ip => !anyBlocked ip
     | .error _ => false)

/-- The per-URL outcome of `add_doc` — independent of the document store
(proved below), so evaluated at the empty store. -/
def addOutcome (hashFn : String → String) (env : NetEnv) (fs : FsEnv)
    (u : ParsedUrl) : Except AddErr String :=
  (add_doc hashFn env fs [] u).1

/-- `if self.add_doc(url):` — sequential-mode success of one URL. -/
def syncSucceeds (hashFn : String → String) (env : NetEnv) (fs : FsEnv)
    (u : ParsedUrl) : Bool :=
  match addOutcome hashFn env fs u with
  | .ok h => !(h == "")
  | .error _ => false

/-- `result is not None` — concurrent-mode success of one URL. -/
def asyncSucceeds (hashFn : String → String) (env : NetEnv) (fs : FsEnv)
    (u : ParsedUrl) : Bool :=
  download_with_semaphore hashFn env fs [] u

/-- A fixed hash function for concrete runs (`_generate_hash_id` is
`hashlib.sha256(url).hexdigest()[:8]`, external to the embedded core). -/
def hash0 : String → String := fun _ => "9473fdd0"

/-- Filesystem in which both the file write and the config save succeed. -/
def fs0 : FsEnv := ⟨none, none⟩

/-- A well-formed URL with no explicit port. -/
def u_ok : ParsedUrl := ⟨"https://example.com/doc.md", "https", some "example.com", none⟩

/-- An `ftp` URL. -/
def u_ftp : ParsedUrl := ⟨"ftp://example.com/file.txt", "ftp", some "example.com", none⟩

/-- A URL with explicit port `0`. -/
def u_port0 : ParsedUrl := ⟨"https://example.com:0/", "https", some "example.com", some 0⟩

/-- A URL with explicit port `22`. -/
def u_port22 : ParsedUrl := ⟨"https://example.com:22/", "https", some "example.com", some 22⟩

/-- Environment: resolves to `8.8.8.8`, trial request returns `text/html`,
GET returns the body `"hi"` in one chunk. -/
def envW : NetEnv :=
  ⟨fun _ => .ok (.v4 (mkV4 8 8 8 8)),
   fun _ => .ok (some "text/html") none,
   fun _ => .ok none [[104, 105]]⟩

/-- Environment resolving every host to the blocked `10.0.0.1`. -/
def envPriv : NetEnv := { envW with resolve := fun _ => .ok (.v4 (mkV4 10 0 0 1)) }

/-- Environment in which DNS resolution fails. -/
def envGai : NetEnv := { envW with resolve := fun _ => .error "Name resolution failed" }

/-- Environment whose GET returns a zero-byte body. -/
def envEmptyBody : NetEnv := { envW with get := fun _ => .ok none [] }

/-- Environment whose GET returns no `content-length` and an 11-byte body. -/
def envBig : NetEnv := { envW with get := fun _ => .ok none [List.replicate 11 104] }

/-- Environment whose GET returns a body that is not valid UTF-8. -/
def envLatin : NetEnv := { envW with get := fun _ => .ok none [[104, 255, 105]] }

/-- A document store with one entry under the hash `hash0` produces. -/
def cfg0 : Documents :=
  [("9473fdd0", ⟨"https://old.example.com/", some "Old Name", some "Old description", ["tag1"]⟩)]

/-! ## Theorems -/

/-- C3: for every URL whose parsed scheme (compared case-insensitively) is
not `http` or `https`, `validate_url_security` raises the scheme
`SSRFError`, and the event trace of both validation and the download path is
empty — no DNS resolution, no trial request, no fetch. -/
theorem schemeRejectionNoNetwork (env : NetEnv) (u : ParsedUrl) (maxSize : Int)
    (h : schemeAllowed u.scheme = false) :
    validate_url_security env u =
      (.error (.vSsrf ("Scheme '" ++ u.scheme ++
        "' not allowed. Only HTTP/HTTPS are permitted.")), []) ∧
    (download_content_sync env u maxSize).1 =
      .error (.vSsrf ("Scheme '" ++ u.scheme ++
        "' not allowed. Only HTTP/HTTPS are permitted.")) ∧
    (download_content_sync env u maxSize).2 = [] := by
  have hv : validate_url_security env u =
      (.error (.vSsrf ("Scheme '" ++ u.scheme ++
        "' not allowed. Only HTTP/HTTPS are permitted.")), []) := by
    simp [validate_url_security, h]
  refine ⟨hv, ?_, ?_⟩ <;>
    simp [download_content_sync, validate_url_sync, hv]

/-- Witness for C3 at the `ftp` URL. -/
theorem schemeRejectionNoNetwork_check :
    schemeAllowed "ftp" = false ∧
    (validate_url_security envW u_ftp =
      (.error (.vSsrf "Scheme 'ftp' not allowed. Only HTTP/HTTPS are permitted."), []) ∧
     (download_content_sync envW u_ftp 0).1 =
      .error (.vSsrf "Scheme 'ftp' not allowed. Only HTTP/HTTPS are permitted.") ∧
     (download_content_sync envW u_ftp 0).2 = []) :=
  ⟨by decide, schemeRejectionNoNetwork envW u_ftp 0 (by decide)⟩

/-- C2: if the URL's hostname resolves (scheme allowed, hostname present),
then a resolved address inside any of the ten blocked prefixes makes
validation raise the private-address `SSRFError` carrying that address,
while a resolved address outside all ten prefixes makes validation proceed
exactly to the port-and-trial steps — which never inspect the address, so
no rejection on address grounds occurs. -/
theorem blockedRangeScreening (env : NetEnv) (u : ParsedUrl) (host : String)
    (ip : IPAddr)
    (hs : schemeAllowed u.scheme = true) (hh : u.hostname = some host)
    (hne : host ≠ "") (hr : env.resolve host = .ok ip) :
    (anyBlocked ip = true →
      validate_url_security env u =
        (.error (.vSsrf (privateIpMsg ip)), [.dnsResolve host])) ∧
    (anyBlocked ip = false →
      validate_url_security env u = portAndTrial env u host) := by
  constructor <;> intro hb <;>
    simp [validate_url_security, hs, hh, hostnamePresent, hne, hr, hb]

/-- Witness for C2: `10.0.0.1` is rejected with the private-address
`SSRFError`; `8.8.8.8` reaches the port/trial steps. -/
theorem blockedRangeScreening_check :
    (anyBlocked (.v4 (mkV4 10 0 0 1)) = true ∧
      validate_url_security envPriv u_ok =
        (.error (.vSsrf "Access to private IP address 10.0.0.1 is not allowed"),
         [.dnsResolve "example.com"])) ∧
    (anyBlocked (.v4 (mkV4 8 8 8 8)) = false ∧
      validate_url_security envW u_ok = portAndTrial envW u_ok "example.com" ∧
      (validate_url_security envW u_ok).1 = .ok (true, none)) := by
  have h1 := (blockedRangeScreening envPriv u_ok "example.com" (.v4 (mkV4 10 0 0 1))
    (by decide) rfl (by decide) rfl).1 (by decide)
  have h2 := (blockedRangeScreening envW u_ok "example.com" (.v4 (mkV4 8 8 8 8))
    (by decide) rfl (by decide) rfl).2 (by decide)
  refine ⟨⟨by decide, ?_⟩, by decide, h2, ?_⟩
  · have : privateIpMsg (.v4 (mkV4 10 0 0 1)) =
        "Access to private IP address 10.0.0.1 is not allowed" := by decide
    rw [h1, this]
  · rw [h2]; decide

/-- C4 counterexample: `https://example.com:0/` carries the explicit port
`0`, which is outside 1–65535, yet validation performs no port-based
rejection at all — the guard `if parsed.port:` is false for `0`, so the
whole port block is skipped and validation succeeds. -/
theorem portValidation_counterexample :
    u_port0.port = some 0 ∧ (0 : Int) < 1 ∧
    (validate_url_security envW u_port0).1 = .ok (true, none) ∧
    (validate_url_security envW u_port0).1 ≠
      .error (.vValidation "Invalid port number: 0") := by
  refine ⟨rfl, by decide, by decide, by decide⟩

/-- C4 (amended): for a URL carrying an explicit *nonzero* port, a port
outside 1–65535 is rejected with the invalid-port `ValidationError` and a
port in the fixed blocked set with the dangerous-port `SSRFError`; for port
80, port 443, an explicit port 0, or no explicit port, no port-based
rejection occurs and validation proceeds to the trial request.  (The claim's
universal invalid-port clause fails only at port 0, which the truthiness
guard `if parsed.port:` exempts.) -/
theorem portValidationAmended (env : NetEnv) (u : ParsedUrl) (host : String)
    (ip : IPAddr)
    (hs : schemeAllowed u.scheme = true) (hh : u.hostname = some host)
    (hne : host ≠ "") (hr : env.resolve host = .ok ip)
    (hb : anyBlocked ip = false) :
    (∀ p : Int, u.port = some p → p ≠ 0 → (p < 1 ∨ p > 65535) →
      validate_url_security env u =
        (.error (.vValidation ("Invalid port number: " ++ toString p)),
         [.dnsResolve host])) ∧
    (∀ p : Int, u.port = some p → dangerous_ports.contains p = true →
      validate_url_security env u =
        (.error (.vSsrf ("Access to port " ++ toString p ++ " is not allowed")),
         [.dnsResolve host])) ∧
    ((u.port = none ∨ u.port = some 0 ∨ u.port = some 80 ∨ u.port = some 443) →
      validate_url_security env u =
        (.ok (trialPhase env u), [.dnsResolve host, .trialRequest u.raw])) := by
  have hv : validate_url_security env u = portAndTrial env u host := by
    simp [validate_url_security, hs, hh, hostnamePresent, hne, hr, hb]
  refine ⟨?_, ?_, ?_⟩
  · intro p hp hp0 hrange
    have hc : portCheck u.port =
        some (.vValidation ("Invalid port number: " ++ toString p)) := by
      rcases hrange with h | h <;> simp [portCheck, hp, hp0, h]
    rw [hv]; simp [portAndTrial, hc]
  · intro p hp hdp
    have hmem : p = 22 ∨ p = 23 ∨ p = 25 ∨ p = 53 ∨ p = 110 ∨ p = 143 ∨
        p = 993 ∨ p = 995 := by
      simpa [dangerous_ports, List.contains] using hdp
    have hc : portCheck u.port =
        some (.vSsrf ("Access to port " ++ toString p ++ " is not allowed")) := by
      rcases hmem with h | h | h | h | h | h | h | h <;> subst h <;>
        simp [portCheck, hp, dangerous_ports]
    rw [hv]; simp [portAndTrial, hc]
  · intro hp
    have hc : portCheck u.port = none := by
      rcases hp with h | h | h | h <;> simp [portCheck, h, dangerous_ports]
    rw [hv]; simp [portAndTrial, hc]

/-- Witness for the amended C4: port 22 is rejected with the dangerous-port
`SSRFError`; port 0 proceeds to the trial request. -/
theorem portValidationAmended_check :
    (validate_url_security envW u_port22 =
      (.error (.vSsrf "Access to port 22 is not allowed"),
       [.dnsResolve "example.com"])) ∧
    (validate_url_security envW u_port0 =
      (.ok (trialPhase envW u_port0),
       [.dnsResolve "example.com", .trialRequest "https://example.com:0/"])) := by
  have h1 := (portValidationAmended envW u_port22 "example.com" (.v4 (mkV4 8 8 8 8))
    (by decide) rfl (by decide) rfl (by decide)).2.1 22 rfl (by decide)
  have h2 := (portValidationAmended envW u_port0 "example.com" (.v4 (mkV4 8 8 8 8))
    (by decide) rfl (by decide) rfl (by decide)).2.2 (Or.inr (Or.inl rfl))
  exact ⟨by rw [h1]; decide, by rw [h2]; rfl⟩

/-- C1: on both the validation and the download path, a connection to the
URL's destination (trial request or real GET) is only ever attempted after
the scheme check, the hostname-presence check, hostname resolution and the
resolved-IP blocked-range check have all succeeded; when any of them fails,
the operation aborts with an exception and no destination request appears in
the trace. -/
theorem noConnectionBeforeValidation (env : NetEnv) (u : ParsedUrl)
    (maxSize : Int) :
    (destAttempted (validate_url_security env u).2 = true ∨
     destAttempted (download_content_sync env u maxSize).2 = true →
       preChecksPass env u = true) ∧
    (preChecksPass env u = false →
       (∃ e, (validate_url_security env u).1 = .error e) ∧
       destAttempted (validate_url_security env u).2 = false ∧
       (∃ e, (download_content_sync env u maxSize).1 = .error e) ∧
       destAttempted (download_content_sync env u maxSize).2 = false) := by
  by_cases hpre : preChecksPass env u = true
  · exact ⟨fun _ => hpre, fun hc => absurd hpre (by simp [hc])⟩
  · have hfail :
        (∃ e evs, validate_url_security env u = (.error e, evs) ∧
          destAttempted evs = false) := by
      by_cases hs : schemeAllowed u.scheme
      · by_cases hh : hostnamePresent u.hostname
        · rcases hr : env.resolve (u.hostname.getD "") with e | ip
          · exact ⟨.vValidation ("Cannot resolve hostname '" ++
                u.hostname.getD "" ++ "': " ++ e),
              [.dnsResolve (u.hostname.getD "")],
              by simp [validate_url_security, hs, hh, hr],
              by simp [destAttempted, isDestEvent]⟩
          · have hb : anyBlocked ip = true := by
              by_contra hbf
              exact hpre (by simp [preChecksPass, hs, hh, hr,
                Bool.not_eq_true _ ▸ hbf])
            exact ⟨.vSsrf (privateIpMsg ip),
              [.dnsResolve (u.hostname.getD "")],
              by simp [validate_url_security, hs, hh, hr, hb],
              by simp [destAttempted, isDestEvent]⟩
        · exact ⟨.vValidation "URL must contain a valid hostname", [],
            by simp [validate_url_security, hs, hh],
            by simp [destAttempted]⟩
      · exact ⟨.vSsrf ("Scheme '" ++ u.scheme ++
            "' not allowed. Only HTTP/HTTPS are permitted."), [],
          by simp [validate_url_security, hs],
          by simp [destAttempted]⟩
    obtain ⟨e, evs, hv, hd⟩ := hfail
    have hdl : download_content_sync env u maxSize = (.error e, evs) := by
      simp [download_content_sync, validate_url_sync, hv]
    constructor
    · intro hc
      rcases hc with hc | hc
      · rw [hv] at hc; exact absurd hc (by simp [hd])
      · rw [hdl] at hc; exact absurd hc (by simp [hd])
    · intro _
      exact ⟨⟨e, by rw [hv]⟩, by rw [hv]; exact hd,
        ⟨e, by rw [hdl]⟩, by rw [hdl]; exact hd⟩

/-- Witness for C1: a URL whose host resolves into `10.0.0.0/8` fails the
pre-network checks, validation and download abort with an exception, and the
trace holds no destination request. -/
theorem noConnectionBeforeValidation_check :
    preChecksPass envPriv u_ok = false ∧
    ((∃ e, (validate_url_security envPriv u_ok).1 = .error e) ∧
     destAttempted (validate_url_security envPriv u_ok).2 = false ∧
     (∃ e, (download_content_sync envPriv u_ok 0).1 = .error e) ∧
     destAttempted (download_content_sync envPriv u_ok 0).2 = false) :=
  ⟨by decide, (noConnectionBeforeValidation envPriv u_ok 0).2 (by decide)⟩

/-- Bytes actually read by the chunk loop: the chunks before the first empty
one (an empty `response.read` result ends the loop). -/
def bytesRead (chunks : List (List Nat)) : Nat :=
  ((chunks.takeWhile (fun c => !c.isEmpty)).map List.length).sum

/-- The chunk loop aborts with the `ContentTooLargeError` message as soon as
the running total exceeds `maxSize`. -/
theorem readChunks_exceed (maxSize : Int) :
    ∀ (chunks : List (List Nat)) (total : Int), total ≤ maxSize →
    total + (bytesRead chunks : Int) > maxSize →
    readChunks maxSize chunks total =
      .error ("Content exceeded " ++ toString maxSize ++ " bytes during download")
  | [], total, hle, hgt => by
    simp [bytesRead] at hgt
    omega
  | c :: rest, total, hle, hgt => by
    by_cases hc : c.isEmpty
    · simp [bytesRead, hc] at hgt
      omega
    · have hlen : ¬(c.length == 0) = true := by
        simp only [beq_iff_eq]
        simpa [List.isEmpty_iff_length_eq_zero] using hc
      by_cases hex : total + (c.length : Int) > maxSize
      · simp [readChunks, hlen, hex]
      · have hle' : total + (c.length : Int) ≤ maxSize := by omega
        have hgt' : total + (c.length : Int) + (bytesRead rest : Int) > maxSize := by
          simp [bytesRead, hc] at hgt ⊢
          omega
        have ih := readChunks_exceed maxSize rest (total + (c.length : Int)) hle' hgt'
        simp [readChunks, hlen, hex, ih]

/-- C5: once validation has passed and the GET has answered without a
declared oversize `content-length` (absent, or no larger than the limit —
i.e. possibly understated), a body whose read bytes exceed the configured
maximum makes the fetch abort with `ContentTooLargeError`; no content is
returned. -/
theorem streamingSizeAbort (env : NetEnv) (u : ParsedUrl) (maxSize : Int)
    (cl : Option Int) (chunks : List (List Nat))
    (hval : (validate_url_sync env u).1 = .ok true)
    (hget : env.get u.raw = .ok cl chunks)
    (hcl : ∀ n, cl = some n → n ≤ maxSize)
    (_hchunk : ∀ c ∈ chunks, c.length ≤ CHUNK_SIZE)
    (hmax : 0 ≤ maxSize)
    (hex : (bytesRead chunks : Int) > maxSize) :
    (download_content_sync env u maxSize).1 =
      .error (.nsContentTooLarge
        ("Content exceeded " ++ toString maxSize ++ " bytes during download")) := by
  have hread := readChunks_exceed maxSize chunks 0 hmax (by omega)
  rcases hv : validate_url_sync env u with ⟨r, evs⟩
  rw [hv] at hval
  simp only at hval
  subst hval
  rcases cl with _ | n
  · simp [download_content_sync, hv, hget, streamAndDecode, hread]
  · have hn : ¬(n > maxSize) := by
      have := hcl n rfl
      omega
    simp [download_content_sync, hv, hget, hn, streamAndDecode, hread]

/-- Witness for C5: with the limit set to 10 bytes and an 11-byte body with
no `content-length`, the fetch aborts with `ContentTooLargeError`. -/
theorem streamingSizeAbort_check :
    (validate_url_sync envBig u_ok).1 = .ok true ∧
    envBig.get u_ok.raw = .ok none [List.replicate 11 104] ∧
    (bytesRead [List.replicate 11 104] : Int) > 10 ∧
    (download_content_sync envBig u_ok 10).1 =
      .error (.nsContentTooLarge "Content exceeded 10 bytes during download") := by
  refine ⟨by decide, rfl, by decide, ?_⟩
  have h := streamingSizeAbort envBig u_ok 10 none [List.replicate 11 104]
    (by decide) rfl (by intro n hn; cases hn) (by decide) (by decide) (by decide)
  rw [h]; rfl

/-- C7: the fetcher's decode step tries UTF-8 first and returns its result
when it succeeds; on UTF-8 failure the fallback order latin-1, cp1252,
iso-8859-1 returns the latin-1 text (each byte as its code point), since
latin-1 decodes every byte string; and if all four decoders failed the step
would fail with the undecodable-content error (vacuous: latin-1 is total on
bytes). -/
theorem decodingFallbackOrder (bs : List Nat) (hb : bs.all (· < 256) = true) :
    (∀ cps, utf8Decode bs = some cps → decodeContent bs = .ok cps) ∧
    (utf8Decode bs = none → decodeContent bs = .ok bs) ∧
    ((utf8Decode bs = none ∧ latin1Decode bs = none ∧ cp1252Decode bs = none ∧
      iso8859_1Decode bs = none) → decodeContent bs = .error "Cannot decode content") := by
  have hl : latin1Decode bs = some bs := by simp [latin1Decode, hb]
  refine ⟨?_, ?_, ?_⟩
  · intro cps h
    simp [decodeContent, h]
  · intro h
    simp [decodeContent, h, hl]
  · rintro ⟨-, hlat, -, -⟩
    rw [hl] at hlat
    cases hlat

/-- Witness for C7: `[0x68, 0xFF, 0x69]` is not valid UTF-8 and decodes to
the same code points under latin-1; the fetch returns that text. -/
theorem decodingFallbackOrder_check :
    utf8Decode [104, 255, 105] = none ∧
    decodeContent [104, 255, 105] = .ok [104, 255, 105] ∧
    (download_content_sync envLatin u_ok MAX_CONTENT_LENGTH).1 =
      .ok [104, 255, 105] := by
  refine ⟨by decide, (decodingFallbackOrder [104, 255, 105] (by decide)).2.1 (by decide), ?_⟩
  decide

/-- C9: a zero-byte response body is returned by the fetcher as valid empty
content, without an exception; it is `add_doc`, not the fetcher, that turns
empty decoded content into `DownloadError("Downloaded content is empty")`,
leaving the document store untouched. -/
theorem emptyContentPolicy (hashFn : String → String) (env : NetEnv)
    (fs : FsEnv) (cfg : Documents) (u : ParsedUrl)
    (hval : (validate_url_sync env u).1 = .ok true)
    (hget : env.get u.raw = .ok none []) :
    (download_content_sync env u MAX_CONTENT_LENGTH).1 = .ok [] ∧
    (add_doc hashFn env fs cfg u).1 =
      .error (.download "Downloaded content is empty") ∧
    (add_doc hashFn env fs cfg u).2 = cfg := by
  rcases hv : validate_url_sync env u with ⟨r, evs⟩
  rw [hv] at hval
  simp only at hval
  subst hval
  have hdecode : decodeContent [] = .ok [] := by decide
  have hdl : (download_content_sync env u MAX_CONTENT_LENGTH).1 = .ok [] := by
    simp [download_content_sync, hv, hget, streamAndDecode, readChunks, hdecode]
  have hvu : docValidateUrl env u = .ok true := by
    simp [docValidateUrl, hv]
  refine ⟨hdl, ?_, ?_⟩ <;> simp [add_doc, hvu, hdl]

/-- Witness for C9 at a concrete environment with an empty body. -/
theorem emptyContentPolicy_check :
    (download_content_sync envEmptyBody u_ok MAX_CONTENT_LENGTH).1 = .ok [] ∧
    (add_doc hash0 envEmptyBody fs0 cfg0 u_ok).1 =
      .error (.download "Downloaded content is empty") ∧
    (add_doc hash0 envEmptyBody fs0 cfg0 u_ok).2 = cfg0 :=
  emptyContentPolicy hash0 envEmptyBody fs0 cfg0 u_ok (by decide) rfl

/-- The per-URL result of `persistDoc` does not depend on the current
document store. -/
theorem persistDoc_fst_indep (hashFn : String → String) (fs : FsEnv)
    (cfg cfg' : Documents) (u : ParsedUrl) :
    (persistDoc hashFn fs cfg u).1 = (persistDoc hashFn fs cfg' u).1 := by
  unfold persistDoc
  cases fs.writeErr <;> cases fs.saveErr <;> rfl

/-- The per-URL result of `add_doc` does not depend on the current document
store: whether a URL succeeds is decided by validation, the download, the
content and the filesystem alone. -/
theorem add_doc_fst_indep (hashFn : String → String) (env : NetEnv)
    (fs : FsEnv) (cfg cfg' : Documents) (u : ParsedUrl) :
    (add_doc hashFn env fs cfg u).1 = (add_doc hashFn env fs cfg' u).1 := by
  unfold add_doc
  cases docValidateUrl env u <;>
    [skip; cases (download_content_sync env u MAX_CONTENT_LENGTH).1] <;>
    simp only [] <;> first
  | rfl
  | (rename_i content
     by_cases hc : content.isEmpty <;>
       simp [hc, persistDoc_fst_indep hashFn fs cfg cfg' u])

/-- Likewise for `add_doc_async`. -/
theorem add_doc_async_fst_indep (hashFn : String → String) (env : NetEnv)
    (fs : FsEnv) (cfg cfg' : Documents) (u : ParsedUrl) :
    (add_doc_async hashFn env fs cfg u).1 = (add_doc_async hashFn env fs cfg' u).1 := by
  unfold add_doc_async
  cases (download_content_sync env u MAX_CONTENT_LENGTH).1 <;> simp only [] <;> first
  | rfl
  | (rename_i content
     by_cases hc : content.isEmpty <;>
       simp [hc, persistDoc_fst_indep hashFn fs cfg cfg' u])

/-- The sequential loop's count equals the number of URLs whose individual
operation succeeds, whatever store it starts from. -/
theorem add_multiple_sync_count (hashFn : String → String) (env : NetEnv)
    (fs : FsEnv) : ∀ (urls : List ParsedUrl) (cfg : Documents),
    (add_multiple_sync hashFn env fs cfg urls).1 =
      urls.countP (syncSucceeds hashFn env fs)
  | [], cfg => by simp [add_multiple_sync]
  | u :: rest, cfg => by
    have hind := add_doc_fst_indep hashFn env fs cfg [] u
    have ih := add_multiple_sync_count hashFn env fs rest
      (add_doc hashFn env fs cfg u).2
    simp only [add_multiple_sync, List.countP_cons, ih]
    rcases h : (add_doc hashFn env fs cfg u).1 with e | hsh <;>
      rw [h] at hind <;>
      simp [syncSucceeds, addOutcome, ← hind] <;>
      by_cases hh : hsh = "" <;> simp [hh] <;> omega

/-- `sum(1 for r in results if r is True)` over a mapped task list counts
the URLs whose task returned `True`. -/
theorem count_true_map {α : Type} (f : α → Bool) :
    ∀ l : List α, (l.map f).count true = l.countP f
  | [] => rfl
  | a :: l => by
    by_cases h : f a <;>
      simp [List.count_cons, List.countP_cons, count_true_map f l, h]

/-- C6: in both batch modes every submitted URL yields exactly one outcome —
the sequential count and the concurrent result list each account for every
URL exactly once, independent of any other URL's failure — and the aggregate
equals the number of URLs whose own operation succeeded, hence is at most
`N`; prepending a URL changes the count by exactly its own contribution,
whether it fails or not. -/
theorem batchOutcomeAccounting (hashFn : String → String) (env : NetEnv)
    (fs : FsEnv) (cfg : Documents) (urls : List ParsedUrl) :
    (add_multiple_sync hashFn env fs cfg urls).1 =
      urls.countP (syncSucceeds hashFn env fs) ∧
    add_multiple_async hashFn env fs cfg urls =
      urls.countP (asyncSucceeds hashFn env fs) ∧
    (add_multiple_sync hashFn env fs cfg urls).1 ≤ urls.length ∧
    add_multiple_async hashFn env fs cfg urls ≤ urls.length ∧
    (∀ (u : ParsedUrl) (rest : List ParsedUrl),
      (add_multiple_sync hashFn env fs cfg (u :: rest)).1 =
        (if syncSucceeds hashFn env fs u then 1 else 0) +
          (add_multiple_sync hashFn env fs cfg rest).1) := by
  have hasync : add_multiple_async hashFn env fs cfg urls =
      urls.countP (asyncSucceeds hashFn env fs) := by
    unfold add_multiple_async
    rw [count_true_map]
    congr 1
    funext u
    simp only [asyncSucceeds, download_with_semaphore]
    rw [add_doc_async_fst_indep hashFn env fs cfg [] u]
  refine ⟨add_multiple_sync_count hashFn env fs urls cfg, hasync, ?_, ?_, ?_⟩
  · rw [add_multiple_sync_count]; exact List.countP_le_length _
  · rw [hasync]; exact List.countP_le_length _
  · intro u rest
    rw [add_multiple_sync_count, add_multiple_sync_count, List.countP_cons]
    by_cases h : syncSucceeds hashFn env fs u <;> simp [h] <;> omega

/-- Assigning a key makes a later lookup of it return the new value. -/
theorem lookupDoc_setDoc_self (d : Documents) (k : String) (v : DocMeta) :
    lookupDoc (setDoc d k v) k = some v := by
  induction d with
  | nil => simp [setDoc, lookupDoc]
  | cons p rest ih =>
    by_cases h : p.1 = k <;> simp [setDoc, lookupDoc, h, ih]

/-- Assigning a key leaves lookups of every other key unchanged. -/
theorem lookupDoc_setDoc_other (d : Documents) (k k' : String) (v : DocMeta)
    (h : k' ≠ k) : lookupDoc (setDoc d k v) k' = lookupDoc d k' := by
  induction d with
  | nil => simp [setDoc, lookupDoc, h, Ne.symm h]
  | cons p rest ih =>
    by_cases hp : p.1 = k
    · subst hp
      simp [setDoc, lookupDoc, h, Ne.symm h]
    · by_cases hp' : p.1 = k' <;>
        simp [setDoc, lookupDoc, hp, hp', h, Ne.symm h, ih]

/-- `persistDoc` either leaves the store unchanged and fails, or performs
exactly the `updateDocuments` assignment. -/
theorem persistDoc_cases (hashFn : String → String) (fs : FsEnv)
    (cfg : Documents) (u : ParsedUrl) :
    ((persistDoc hashFn fs cfg u).2 = cfg ∧
      ∀ h, (persistDoc hashFn fs cfg u).1 ≠ .ok h) ∨
    (persistDoc hashFn fs cfg u).2 =
      updateDocuments cfg (hashFn u.raw) u.raw := by
  unfold persistDoc
  cases fs.writeErr <;> cases fs.saveErr <;> simp

/-- `add_doc` either leaves the store unchanged and fails, or performs
exactly the `updateDocuments` assignment. -/
theorem add_doc_cases (hashFn : String → String) (env : NetEnv) (fs : FsEnv)
    (cfg : Documents) (u : ParsedUrl) :
    ((add_doc hashFn env fs cfg u).2 = cfg ∧
      ∀ h, (add_doc hashFn env fs cfg u).1 ≠ .ok h) ∨
    (add_doc hashFn env fs cfg u).2 =
      updateDocuments cfg (hashFn u.raw) u.raw := by
  unfold add_doc
  cases hvu : docValidateUrl env u
  · simp
  · cases hdl : (download_content_sync env u MAX_CONTENT_LENGTH).1
    · simp
    · rename_i content
      by_cases hc : content.isEmpty
      · simp [hc]
      · simpa [hc] using persistDoc_cases hashFn fs cfg u

/-- `add_doc_async` either leaves the store unchanged and fails, or performs
exactly the `updateDocuments` assignment. -/
theorem add_doc_async_cases (hashFn : String → String) (env : NetEnv)
    (fs : FsEnv) (cfg : Documents) (u : ParsedUrl) :
    ((add_doc_async hashFn env fs cfg u).2 = cfg ∧
      ∀ h, (add_doc_async hashFn env fs cfg u).1 ≠ .ok h) ∨
    (add_doc_async hashFn env fs cfg u).2 =
      updateDocuments cfg (hashFn u.raw) u.raw := by
  unfold add_doc_async
  cases hdl : (download_content_sync env u MAX_CONTENT_LENGTH).1
  · simp
  · rename_i content
    by_cases hc : content.isEmpty
    · simp [hc]
    · simpa [hc] using persistDoc_cases hashFn fs cfg u

/-- Frame property of one add operation on the document store: the entry under
the URL's hash keeps its `name`, `description` and `tags`; its `url` is the
old one or the new one, and on success exactly the new one; every other key
is untouched. -/
def preservesMetadata (old : DocMeta) (u : ParsedUrl) (hash : String)
    (cfg : Documents) (res : Except AddErr String × Documents) : Prop :=
  (∃ m, lookupDoc res.2 hash = some m ∧
    m.name = old.name ∧ m.description = old.description ∧ m.tags = old.tags ∧
    (m.url = old.url ∨ m.url = u.raw) ∧
    (∀ h, res.1 = .ok h → m = { old with url := u.raw })) ∧
  (∀ k, k ≠ hash → lookupDoc res.2 k = lookupDoc cfg k)

/-- Helper: `preservesMetadata` follows from the case split of an add
operation. -/
theorem preservesMetadata_of_cases (old : DocMeta) (u : ParsedUrl)
    (hashFn : String → String) (cfg : Documents)
    (res : Except AddErr String × Documents)
    (hold : lookupDoc cfg (hashFn u.raw) = some old)
    (hc : (res.2 = cfg ∧ ∀ h, res.1 ≠ .ok h) ∨
      res.2 = updateDocuments cfg (hashFn u.raw) u.raw) :
    preservesMetadata old u (hashFn u.raw) cfg res := by
  rcases hc with ⟨heq, hfail⟩ | heq
  · refine ⟨⟨old, ?_, rfl, rfl, rfl, Or.inl rfl, ?_⟩, ?_⟩
    · rw [heq]; exact hold
    · intro h hok; exact absurd hok (hfail h)
    · intro k _; rw [heq]
  · have hupd : updateDocuments cfg (hashFn u.raw) u.raw =
        setDoc cfg (hashFn u.raw) { old with url := u.raw } := by
      simp [updateDocuments, hold]
    refine ⟨⟨{ old with url := u.raw }, ?_, rfl, rfl, rfl, Or.inr rfl,
      fun _ _ => rfl⟩, ?_⟩
    · rw [heq, hupd]; exact lookupDoc_setDoc_self ..
    · intro k hk
      rw [heq, hupd]; exact lookupDoc_setDoc_other _ _ _ _ hk

/-- C10: when the URL's hash ID already has an entry in the document store,
both `add_doc` and `add_doc_async` leave that entry's `name`, `description`
and `tags` unchanged; only its `url` field is (on success) updated, and no
other entry is touched. -/
theorem metadataFramePreservation (hashFn : String → String) (env : NetEnv)
    (fs : FsEnv) (cfg : Documents) (u : ParsedUrl) (old : DocMeta)
    (hold : lookupDoc cfg (hashFn u.raw) = some old) :
    preservesMetadata old u (hashFn u.raw) cfg (add_doc hashFn env fs cfg u) ∧
    preservesMetadata old u (hashFn u.raw) cfg (add_doc_async hashFn env fs cfg u) :=
  ⟨preservesMetadata_of_cases old u hashFn cfg _ hold
     (add_doc_cases hashFn env fs cfg u),
   preservesMetadata_of_cases old u hashFn cfg _ hold
     (add_doc_async_cases hashFn env fs cfg u)⟩

/-- Witness for C10: re-adding a stored URL under hash `9473fdd0` preserves
the stored name, description and tags. -/
theorem metadataFramePreservation_check :
    lookupDoc cfg0 (hash0 u_ok.raw) = some
      ⟨"https://old.example.com/", some "Old Name", some "Old description", ["tag1"]⟩ ∧
    (preservesMetadata
      ⟨"https://old.example.com/", some "Old Name", some "Old description", ["tag1"]⟩
      u_ok (hash0 u_ok.raw) cfg0 (add_doc hash0 envW fs0 cfg0 u_ok) ∧
     preservesMetadata
      ⟨"https://old.example.com/", some "Old Name", some "Old description", ["tag1"]⟩
      u_ok (hash0 u_ok.raw) cfg0 (add_doc_async hash0 envW fs0 cfg0 u_ok)) :=
  ⟨by decide,
   metadataFramePreservation hash0 envW fs0 cfg0 u_ok _ (by decide)⟩

/-- The private-address message contains `"private IP"` whatever the
rendered address. -/
theorem strContains_privateIpMsg (s : String) :
    strContains ("Access to private IP address " ++ s ++ " is not allowed")
      "private IP" = true := by
  unfold strContains
  rw [decide_eq_true_eq]
  refine ⟨"Access to ".data,
    " address ".data ++ s.data ++ " is not allowed".data, ?_⟩
  rfl

/-- C8 counterexample: a private-IP security rejection and an ordinary
DNS failure produce *distinct typed exceptions* per URL, but
`add_multiple` — in both modes — delivers the identical bare count `0` to
its caller, so the batch result does collapse the two categories; in
concurrent mode even the per-URL security category is lost, re-wrapped as a
generic `DownloadError`. -/
theorem categoryCollapse_counterexample :
    (add_doc hash0 envPriv fs0 [] u_ok).1 =
      .error (.validation
        "Security violation: Access to private IP address 10.0.0.1 is not allowed") ∧
    (add_doc hash0 envGai fs0 [] u_ok).1 =
      .error (.network
        "URL validation failed: Cannot resolve hostname 'example.com': Name resolution failed") ∧
    add_multiple hash0 envPriv fs0 [] [u_ok] false =
      add_multiple hash0 envGai fs0 [] [u_ok] false ∧
    add_multiple hash0 envPriv fs0 [] [u_ok] false = 0 ∧
    add_multiple hash0 envPriv fs0 [] [u_ok] true =
      add_multiple hash0 envGai fs0 [] [u_ok] true ∧
    (add_doc_async hash0 envPriv fs0 [] u_ok).1 =
      .error (.download
        "Unexpected error: Access to private IP address 10.0.0.1 is not allowed") := by
  decide

/-- C8 (amended): failure categories survive to each per-URL boundary only
partially — a private-address rejection is re-raised by
`DocManager.validate_url` as the security-tagged
`exceptions.ValidationError("Security violation: ...")` and surfaces from
`add_doc` as such, while a scheme or dangerous-port security rejection is
re-labelled as an ordinary `exceptions.NetworkError` because its message
matches neither `"SSRF"` nor `"private IP"`; the batch orchestrator catches
every per-URL exception and returns only the aggregate count, so the batch
result preserves no category at all. -/
theorem categoryPropagationAmended (env : NetEnv) (u : ParsedUrl)
    (host : String) (ip : IPAddr)
    (hs : schemeAllowed u.scheme = true) (hh : u.hostname = some host)
    (hne : host ≠ "") (hr : env.resolve host = .ok ip)
    (hb : anyBlocked ip = true) :
    docValidateUrl env u =
      .error (.validation ("Security violation: " ++ privateIpMsg ip)) ∧
    (∀ (hashFn : String → String) (fs : FsEnv) (cfg : Documents),
      (add_doc hashFn env fs cfg u).1 =
        .error (.validation ("Security violation: " ++ privateIpMsg ip))) ∧
    (∀ (hashFn : String → String) (fs : FsEnv) (cfg : Documents),
      (add_multiple_sync hashFn env fs cfg [u]).1 = 0) ∧
    (∀ (env' : NetEnv) (raw : String) (h : Option String) (p : Option Int),
      docValidateUrl env' ⟨raw, "ftp", h, p⟩ =
        .error (.network
          "URL validation failed: Scheme 'ftp' not allowed. Only HTTP/HTTPS are permitted.")) ∧
    (∀ (env' : NetEnv) (u' : ParsedUrl) (host' : String) (ip' : IPAddr),
      schemeAllowed u'.scheme = true → u'.hostname = some host' →
      host' ≠ "" → env'.resolve host' = .ok ip' → anyBlocked ip' = false →
      u'.port = some 22 →
      docValidateUrl env' u' =
        .error (.network "URL validation failed: Access to port 22 is not allowed")) := by
  have hv : validate_url_security env u =
      (.error (.vSsrf (privateIpMsg ip)), [.dnsResolve host]) := by
    simp [validate_url_security, hs, hh, hostnamePresent, hne, hr, hb]
  have hcontains : strContains (privateIpMsg ip) "private IP" = true := by
    simpa [privateIpMsg] using strContains_privateIpMsg (ipStr ip)
  have hvu : docValidateUrl env u =
      .error (.validation ("Security violation: " ++ privateIpMsg ip)) := by
    simp [docValidateUrl, validate_url_sync, hv, pyErrStr, hcontains]
  have hadd : ∀ (hashFn : String → String) (fs : FsEnv) (cfg : Documents),
      (add_doc hashFn env fs cfg u).1 =
        .error (.validation ("Security violation: " ++ privateIpMsg ip)) := by
    intro hashFn fs cfg
    simp [add_doc, hvu]
  refine ⟨hvu, hadd, ?_, ?_, ?_⟩
  · intro hashFn fs cfg
    simp [add_multiple_sync, hadd hashFn fs cfg]
  · intro env' raw h p
    have h1 : strContains
        "Scheme 'ftp' not allowed. Only HTTP/HTTPS are permitted." "SSRF" = false := by
      decide
    have h2 : strContains
        "Scheme 'ftp' not allowed. Only HTTP/HTTPS are permitted." "private IP" = false := by
      decide
    have hsch : schemeAllowed "ftp" = false := by decide
    simp [docValidateUrl, validate_url_sync, validate_url_security, hsch,
      pyErrStr, h1, h2]
  · intro env' u' host' ip' hs' hh' hne' hr' hb' hp'
    have hc : portCheck u'.port =
        some (.vSsrf "Access to port 22 is not allowed") := by
      simp [portCheck, hp', dangerous_ports]
      decide
    have hv' : validate_url_security env' u' =
        (.error (.vSsrf "Access to port 22 is not allowed"),
         [.dnsResolve host']) := by
      simp [validate_url_security, hs', hh', hostnamePresent, hne', hr', hb',
        portAndTrial, hc]
    have h1 : strContains "Access to port 22 is not allowed" "SSRF" = false := by
      decide
    have h2 : strContains "Access to port 22 is not allowed" "private IP" = false := by
      decide
    simp [docValidateUrl, validate_url_sync, hv', pyErrStr, h1, h2]

/-- Witness for the amended C8: at the `10.0.0.1` environment the security
category reaches `add_doc`'s caller as `ValidationError`, and the batch
call returns the bare count `0`. -/
theorem categoryPropagationAmended_check :
    docValidateUrl envPriv u_ok =
      .error (.validation
        "Security violation: Access to private IP address 10.0.0.1 is not allowed") ∧
    (add_multiple_sync hash0 envPriv fs0 [] [u_ok]).1 = 0 := by
  have h := categoryPropagationAmended envPriv u_ok "example.com"
    (.v4 (mkV4 10 0 0 1)) (by decide) rfl (by decide) rfl (by decide)
  refine ⟨?_, h.2.2.1 hash0 fs0 []⟩
  have hmsg : "Security violation: " ++ privateIpMsg (.v4 (mkV4 10 0 0 1)) =
      "Security violation: Access to private IP address 10.0.0.1 is not allowed" := by
    decide
  rw [h.1, hmsg]

end LocalDocs
